import Mathlib

set_option maxRecDepth 40000

/-!
# Verification of the qtoolkit SLURM scheduler adapter

A shallow embedding, in Lean, of the SLURM adapter of qtoolkit
(`src/qtoolkit/io/slurm.py`) together with the data objects it uses
(`src/qtoolkit/core/data_objects.py`), and theorems settling the frozen
claims about it.

Python strings are embedded as Lean `String`s, operated on through their
underlying `List Char` so that every definition reduces inside the kernel.
Python `int` is embedded as Lean `Int` (Python integers are unbounded).
Python exceptions are embedded as the error side of `Except`, with an
explicit error datatype distinguishing the project's own exception classes
(`CommandFailedError`, `OutputParsingError`) from builtin Python exceptions
(`KeyError`, `IndexError`, `TypeError`, `ValueError`, `RuntimeError`) that
can escape the adapter's `try/except` blocks.
-/

/-! ## Python string primitives -/

/-- The characters Python's `str.strip()` and the regex class `\s` treat as
whitespace, restricted to ASCII (the adapter only ever meets ASCII output):
space, tab, newline, carriage return, vertical tab, form feed. -/
def isPySpace (c : Char) : Bool :=
  c = ' ' ∨ c = '\t' ∨ c = '\n' ∨ c = '\r' ∨ c = Char.ofNat 11 ∨ c = Char.ofNat 12

/-- Python `str.strip()` on the character list. -/
def pyStripL (cs : List Char) : List Char :=
  ((cs.dropWhile isPySpace).reverse.dropWhile isPySpace).reverse

/-- Python `str.strip()`. -/
def pyStrip (s : String) : String :=
  String.mk (pyStripL s.data)

/-- Fuel-driven worker for splitting on an explicit separator: scans left to
right, cutting at each non-overlapping occurrence of `sep`, like Python's
`str.split(sep)`. The fuel is always at least the list length plus one, so
the fuel-exhausted branch is never taken. -/
def splitSepAux (sep : List Char) : Nat → List Char → List Char → List (List Char)
  | 0, cs, acc => [acc.reverse ++ cs]
  | _ + 1, [], acc => [acc.reverse]
  | n + 1, c :: rest, acc =>
    if sep ≠ [] ∧ sep.isPrefixOf (c :: rest) then
      acc.reverse :: splitSepAux sep n ((c :: rest).drop sep.length) []
    else
      splitSepAux sep n rest (c :: acc)

/-- Python `s.split(sep)` for a non-empty explicit separator
(Python raises on an empty separator; we return `[s]` there, a case the
adapter never exercises). -/
def pySplitSep (s sep : String) : List String :=
  (splitSepAux sep.data (s.data.length + 1) s.data []).map String.mk

/-- Python `s.split(sep, maxsplit := 1)`: cut at the first occurrence only. -/
def pySplitSepOnceAux (sep : List Char) : Nat → List Char → List Char → List (List Char)
  | 0, cs, acc => [acc.reverse ++ cs]
  | _ + 1, [], acc => [acc.reverse]
  | n + 1, c :: rest, acc =>
    if sep ≠ [] ∧ sep.isPrefixOf (c :: rest) then
      [acc.reverse, (c :: rest).drop sep.length]
    else
      pySplitSepOnceAux sep n rest (c :: acc)

/-- Python `s.split(sep, maxsplit := 1)`. -/
def pySplitSepOnce (s sep : String) : List String :=
  (pySplitSepOnceAux sep.data (s.data.length + 1) s.data []).map String.mk

/-- Python's substring test `sep in s` (for non-empty `sep`; `"" in s` is
always true in Python). -/
def pyInStr (sub s : String) : Bool :=
  if sub = "" then true else (pySplitSep s sub).length > 1

/-- Worker for Python `str.splitlines()`, handling the line breaks the
adapter can meet: `\n`, `\r\n` and `\r`.  A trailing break opens no empty
final line, and the empty string has no lines — exactly Python's rule. -/
def pySplitlinesAux : List Char → List Char → List String
  | [], [] => []
  | [], acc => [String.mk acc.reverse]
  | '\r' :: '\n' :: tl, acc => String.mk acc.reverse :: pySplitlinesAux tl []
  | '\n' :: tl, acc => String.mk acc.reverse :: pySplitlinesAux tl []
  | '\r' :: tl, acc => String.mk acc.reverse :: pySplitlinesAux tl []
  | c :: tl, acc => pySplitlinesAux tl (c :: acc)

/-- Python `str.splitlines()`. -/
def pySplitlines (s : String) : List String :=
  pySplitlinesAux s.data []

/-- Python `str.split()` with no argument: split on whitespace runs,
discarding empty fields. -/
def pyWhitespaceSplitAux : List Char → List Char → List String
  | [], [] => []
  | [], acc => [String.mk acc.reverse]
  | c :: tl, acc =>
    if isPySpace c then
      (if acc = [] then pyWhitespaceSplitAux tl []
       else String.mk acc.reverse :: pyWhitespaceSplitAux tl [])
    else pyWhitespaceSplitAux tl (c :: acc)

/-- Python `str.split()` (no separator argument). -/
def pyWhitespaceSplit (s : String) : List String :=
  pyWhitespaceSplitAux s.data []

/-- Numeric value of a non-empty list of ASCII digits. -/
def digitsVal (cs : List Char) : Int :=
  cs.foldl (fun a c => a * 10 + Int.ofNat (c.toNat - 48)) 0

/-- Python `int(s)` for a decimal string: surrounding whitespace is
stripped, one optional sign, then at least one ASCII digit; anything else
is a `ValueError`, embedded as `none`.  (Python additionally accepts
underscore digit-group separators and non-ASCII digits; the adapter never
meets either.) -/
def pyInt? (s : String) : Option Int :=
  let cs := pyStripL s.data
  match cs with
  | [] => none
  | c :: tl =>
    let signed : Int × List Char :=
      if c = '-' then (-1, tl) else if c = '+' then (1, tl) else (1, cs)
    if signed.2 ≠ [] ∧ signed.2.all Char.isDigit then
      some (signed.1 * digitsVal signed.2)
    else none

/-- A single-quote character as a string (used in the built command lines). -/
def squote : String := (Char.ofNat 39).toString

/-! ## Errors

`commandFailed` embeds `qtoolkit.core.exceptions.CommandFailedError`,
`parsing` embeds `qtoolkit.core.exceptions.OutputParsingError` (whose
message is empty where the source writes a bare `raise OutputParsingError`),
and the remaining constructors embed the builtin Python exceptions that the
source can raise and never catches. -/

inductive QErr where
  | commandFailed (msg : String)
  | parsing (msg : String)
  | pyKeyError (key : String)
  | pyIndexError
  | pyTypeError (msg : String)
  | pyValueError (msg : String)
  | pyRuntimeError (msg : String)
  | pyNotImplementedError (msg : String)
deriving DecidableEq

/-- Whether an error is the project's `OutputParsingError`. -/
def QErr.isParsingError : QErr → Bool
  | .parsing _ => true
  | _ => false

instance {ε α : Type} [DecidableEq ε] [DecidableEq α] : DecidableEq (Except ε α) := fun x y =>
  match x, y with
  | .ok a, .ok b =>
    if h : a = b then isTrue (by rw [h]) else isFalse (by intro he; cases he; exact h rfl)
  | .error a, .error b =>
    if h : a = b then isTrue (by rw [h]) else isFalse (by intro he; cases he; exact h rfl)
  | .ok _, .error _ => isFalse (by intro h; cases h)
  | .error _, .ok _ => isFalse (by intro h; cases h)

/-! ## Data model (`qtoolkit/core/data_objects.py`) -/

/-- `QState`: the canonical ("standardized") job states. -/
inductive QState where
  | UNDETERMINED
  | QUEUED
  | QUEUED_HELD
  | RUNNING
  | SUSPENDED
  | REQUEUED
  | REQUEUED_HELD
  | DONE
  | FAILED
deriving DecidableEq

/-- `SlurmState`: the twelve raw SLURM states declared by the adapter. -/
inductive SlurmState where
  | CANCELLED
  | COMPLETING
  | COMPLETED
  | CONFIGURING
  | DEADLINE
  | FAILED
  | NODE_FAIL
  | OUT_OF_MEMORY
  | PENDING
  | RUNNING
  | SUSPENDED
  | TIMEOUT
deriving DecidableEq

/-- The alias table built by `QSubState.__new__`: each `SlurmState` member
is registered under its full name and under its compact squeue code, both
resolving to the same member. -/
def slurmStateAliases : List (String × SlurmState) :=
  [("CANCELLED", .CANCELLED), ("CA", .CANCELLED),
   ("COMPLETING", .COMPLETING), ("CG", .COMPLETING),
   ("COMPLETED", .COMPLETED), ("CD", .COMPLETED),
   ("CONFIGURING", .CONFIGURING), ("CF", .CONFIGURING),
   ("DEADLINE", .DEADLINE), ("DL", .DEADLINE),
   ("FAILED", .FAILED), ("F", .FAILED),
   ("NODE_FAIL", .NODE_FAIL), ("NF", .NODE_FAIL),
   ("OUT_OF_MEMORY", .OUT_OF_MEMORY), ("OOM", .OUT_OF_MEMORY),
   ("PENDING", .PENDING), ("PD", .PENDING),
   ("RUNNING", .RUNNING), ("R", .RUNNING),
   ("SUSPENDED", .SUSPENDED), ("S", .SUSPENDED),
   ("TIMEOUT", .TIMEOUT), ("TO", .TIMEOUT)]

/-- The enum value lookup `SlurmState(literal)`; `none` embeds the
`ValueError` Python raises for an unrecognized literal. -/
def slurmStateOfString (s : String) : Option SlurmState :=
  (slurmStateAliases.lookup s)

/-- `SlurmIO._STATUS_MAPPING`, as the literal association list of the
source dictionary, in source order. -/
def STATUS_MAPPING : List (SlurmState × QState) :=
  [(.CANCELLED, .SUSPENDED),
   (.COMPLETING, .RUNNING),
   (.COMPLETED, .DONE),
   (.CONFIGURING, .QUEUED),
   (.DEADLINE, .FAILED),
   (.FAILED, .FAILED),
   (.NODE_FAIL, .FAILED),
   (.OUT_OF_MEMORY, .FAILED),
   (.PENDING, .QUEUED),
   (.RUNNING, .RUNNING),
   (.SUSPENDED, .SUSPENDED),
   (.TIMEOUT, .FAILED)]

/-- The dictionary lookup `self._STATUS_MAPPING[state]` as used by the
parsers.  The default is never taken: the mapping is total over
`SlurmState` (proved below as the totality half of claim C5). -/
def statusMap (s : SlurmState) : QState :=
  (STATUS_MAPPING.lookup s).getD QState.UNDETERMINED

/-- `SubmissionStatus`. -/
inductive SubmissionStatus where
  | SUCCESSFUL
  | FAILED
  | JOB_ID_UNKNOWN
deriving DecidableEq

/-- `SubmissionResult` (the dataclass; unset fields default to `None`). -/
structure SubmissionResult where
  job_id : Option String := none
  step_id : Option Int := none
  exit_code : Option Int := none
  stdout : Option String := none
  stderr : Option String := none
  status : Option SubmissionStatus := none
deriving DecidableEq

/-- `QJobInfo` (the dataclass).  `partition` is not a declared dataclass
field but is assigned dynamically by `parse_jobs_list_output`
(`info.partition = ...`), which plain Python objects allow; it is embedded
here as one more optional slot. -/
structure QJobInfo where
  memory : Option Int := none
  memory_per_cpu : Option Int := none
  nodes : Option Int := none
  cpus : Option Int := none
  threads_per_process : Option Int := none
  time_limit : Option Int := none
  partition : Option String := none
deriving DecidableEq

/-- `QJob` (the dataclass).  `username` is likewise assigned dynamically by
`parse_jobs_list_output` (`qjob.username = ...`). -/
structure QJob where
  name : Option String := none
  job_id : Option String := none
  exit_status : Option Int := none
  state : Option QState := none
  sub_state : Option SlurmState := none
  info : Option QJobInfo := none
  account : Option String := none
  runtime : Option Int := none
  queue_name : Option String := none
  username : Option String := none
deriving DecidableEq

/-! ## Unit conversion (`SlurmIO._convert_time_str`, `_convert_memory_str`) -/

/-- `SlurmIO._convert_time_str`.  Mirrors the source statement for
statement: the empty string and the literals `UNLIMITED` / `NOT_SET` give
an absent value; otherwise the string is split on `:`; when the first
field contains a `-` the part before the `-` is read as the day count and
— exactly as the source line `time_split = [split_day[0]] + time_split[1:]`
does — that same day figure is put back as the first remaining field; then
3 / 2 / 1 remaining fields are read as H:M:S / M:S / M; every failed `int`
conversion and any other field count raise `OutputParsingError`. -/
def convert_time_str (time_str : String) : Except QErr (Option Int) :=
  if time_str = "" then .ok none
  else if time_str = "UNLIMITED" ∨ time_str = "NOT_SET" then .ok none
  else
    match pySplitSep time_str ":" with
    | [] => .error (.parsing "")
    | t0 :: rest =>
      let dayStep : Option (Int × List String) :=
        if pyInStr "-" t0 then
          let split_day := pySplitSep t0 "-"
          match pyInt? (split_day.headD "") with
          | none => none
          | some d => some (d, split_day.headD "" :: rest)
        else some (0, t0 :: rest)
      match dayStep with
      | none => .error (.parsing "")
      | some (days, ts) =>
        match ts with
        | [a, b, c] =>
          match pyInt? a, pyInt? b, pyInt? c with
          | some hrs, some mins, some secs =>
            .ok (some (days * 86400 + hrs * 3600 + mins * 60 + secs))
          | _, _, _ => .error (.parsing "")
        | [a, b] =>
          match pyInt? a, pyInt? b with
          | some mins, some secs => .ok (some (days * 86400 + mins * 60 + secs))
          | _, _ => .error (.parsing "")
        | [a] =>
          match pyInt? a with
          | some mins => .ok (some (days * 86400 + mins * 60))
          | none => .error (.parsing "")
        | _ => .error (.parsing "")

/-- `SlurmIO._convert_memory_str`.  Mirrors the source exactly: the
assume-megabytes branch is guarded by `all(u in memory for u in
("K", "M", "G", "T"))` — the string must contain all four letters —
otherwise the last character is taken as the unit and stripped; a failed
`int` on what remains raises `OutputParsingError`; a unit character
outside the `power_labels` table raises an (uncaught) `KeyError`, and the
`memory[-1]` indexing of an empty string raises an (uncaught)
`IndexError`. -/
def convert_memory_str (memory : String) : Except QErr Int :=
  let hasAll : Bool :=
    pyInStr "K" memory ∧ pyInStr "M" memory ∧ pyInStr "G" memory ∧ pyInStr "T" memory
  let unitsAndRest : Except QErr (String × String) :=
    if hasAll then .ok ("M", memory)
    else
      match memory.data.reverse with
      | [] => .error .pyIndexError
      | last :: frontRev => .ok (last.toString, String.mk frontRev.reverse)
  match unitsAndRest with
  | .error e => .error e
  | .ok (units, rest) =>
    match pyInt? rest with
    | none => .error (.parsing "")
    | some v =>
      match [("K", 0), ("M", 1), ("G", 2), ("T", 3)].lookup units with
      | none => .error (.pyKeyError units)
      | some p => .ok (v * (1024 : Int) ^ (p : Nat))

/-! ## List-query command builder (`SlurmIO._get_jobs_list_cmd`) -/

/-- `SlurmIO.squeue_fields`: ordered (format code, canonical name) pairs. -/
def squeue_fields : List (String × String) :=
  [("%i", "job_id"),
   ("%t", "state_raw"),
   ("%r", "annotation"),
   ("%j", "job_name"),
   ("%u", "username"),
   ("%P", "partition"),
   ("%l", "time_limit"),
   ("%D", "number_nodes"),
   ("%C", "number_cpus"),
   ("%M", "time_used"),
   ("%m", "min_memory")]

/-- Python truthiness of an optional string (`None` and `""` are falsy). -/
def pyTruthyStr : Option String → Bool
  | none => false
  | some s => s ≠ ""

/-- Python truthiness of an optional list (`None` and `[]` are falsy). -/
def pyTruthyList : Option (List String) → Bool
  | none => false
  | some l => l ≠ []

/-- `SlurmIO._get_jobs_list_cmd`, with the aliasing of the caller's job-id
list made explicit: the result carries both the command string and the
job-id list as the caller observes it after the call, because the source
line `job_ids += [job_ids[0]]` extends the caller's list in place.  The
`ValueError` for a simultaneous user and job filter is the error side. -/
def get_jobs_list_cmd (split_separator : String) (job_ids : Option (List String))
    (user : Option String) : Except QErr (String × Option (List String)) :=
  if pyTruthyStr user ∧ pyTruthyList job_ids then
    .error (.pyValueError "Cannot query by user and job(s) in SLURM")
  else
    let fields := String.intercalate (split_separator ++ " ") (squeue_fields.map (·.1))
    let command0 : List String :=
      ["SLURM_TIME_FORMAT=" ++ squote ++ "standard" ++ squote,
       "squeue",
       "--noheader",
       "-o " ++ squote ++ fields ++ squote]
    let command1 := command0 ++ (match user with
      | some u => if u ≠ "" then ["-u " ++ u] else []
      | none => [])
    let idsStep : List String × Option (List String) :=
      match job_ids with
      | some ids =>
        if ids ≠ [] then
          let ids2 := if ids.length = 1 then ids ++ ids.take 1 else ids
          (["--jobs=" ++ String.intercalate "," ids2], some ids2)
        else ([], some ids)
      | none => ([], none)
    .ok (String.intercalate " " (command1 ++ idsStep.1), idsStep.2)

/-! ## Submit-output parsing (`SlurmIO.parse_submit_output`)

The acknowledgement pattern is the source regular expression
`(.*:\s*)?([Gg]ranted job allocation|[Ss]ubmitted batch job)\s+(?P<jobid>\d+)`
applied with `re.match` (anchored at the start) to the stripped stdout.
It is embedded by a direct matcher with Python's backtracking priority:
the optional prefix group is tried first with the longest possible `.*`
(which cannot cross a newline), and within it `\s*` may be taken maximal
because the keyword never starts with whitespace. -/

/-- Remainder of `cs` after the literal prefix `p`, if `p` is a prefix. -/
def matchLiteral : List Char → List Char → Option (List Char)
  | rest, [] => some rest
  | [], _ :: _ => none
  | c :: tl, p :: ps => if c = p then matchLiteral tl ps else none

/-- Match one of the four keyword spellings
(`[Gg]ranted job allocation` / `[Ss]ubmitted batch job`) at the head. -/
def matchKeyword (cs : List Char) : Option (List Char) :=
  (matchLiteral cs "Granted job allocation".data).orElse fun _ =>
  (matchLiteral cs "granted job allocation".data).orElse fun _ =>
  (matchLiteral cs "Submitted batch job".data).orElse fun _ =>
  matchLiteral cs "submitted batch job".data

/-- Match `([Gg]ranted job allocation|[Ss]ubmitted batch job)\s+(\d+)` at
the head, returning the captured digit group (maximal, as `\d+` is
greedy and nothing follows it in the pattern). -/
def matchKwIdTail (cs : List Char) : Option String :=
  match matchKeyword cs with
  | none => none
  | some rest =>
    let sp := rest.takeWhile isPySpace
    if sp.isEmpty then none
    else
      let after := rest.dropWhile isPySpace
      let ds := after.takeWhile Char.isDigit
      if ds.isEmpty then none else some (String.mk ds)

/-- All ways to read `.*:` at the head of `cs` (a non-newline prefix
followed by a colon), listed by increasing prefix length; each entry is
the remainder after the colon. -/
def colonSplits : List Char → List (List Char)
  | [] => []
  | c :: rest =>
    (if c = ':' then [rest] else []) ++
    (if c = '\n' then [] else colonSplits rest)

/-- The full anchored match of the submission-acknowledgement pattern,
returning the `jobid` group of the match Python's backtracking finds:
prefix-present alternatives first, longest `.*` first, then the
prefix-absent alternative. -/
def slurmSubmittedMatch (s : String) : Option String :=
  let cs := s.data
  match (colonSplits cs).reverse.findSome?
      (fun rest => matchKwIdTail (rest.dropWhile isPySpace)) with
  | some jid => some jid
  | none => matchKwIdTail cs

/-- `SlurmIO.parse_submit_output`.  A total function: the source raises
nothing on this path (the `bytes` decoding branches are identity on the
embedded strings).  `if job_id` is embedded as `isSome`, faithful because
a captured `\d+` group is never the empty (falsy) string. -/
def parse_submit_output (exit_code : Int) (stdout stderr : String) : SubmissionResult :=
  if exit_code ≠ 0 then
    { exit_code := some exit_code, stdout := some stdout, stderr := some stderr,
      status := some .FAILED }
  else
    let job_id := slurmSubmittedMatch (pyStrip stdout)
    let status : SubmissionStatus := if job_id.isSome then .SUCCESSFUL else .JOB_ID_UNKNOWN
    { job_id := job_id, exit_code := some exit_code, stdout := some stdout,
      stderr := some stderr, status := some status }

/-! ## Jobs-list output parsing (`SlurmIO.parse_jobs_list_output`) -/

/-- The message of the wrong-field-count `OutputParsingError`.  As in the
source, the "Found" figure is `len(jobdata_raw)` — the number of data
lines, not the field count of the offending line. -/
def wrongFieldCountMsg (numLines expected : Nat) : String :=
  "Wrong number of fields. Found " ++ toString numLines ++ ", expected " ++ toString expected

/-- A Python `dict[str, str]` lookup over the insertion list: the last
binding of a key wins (as in a dict built by comprehension), and a missing
key raises `KeyError`. -/
def pyDictGet (d : List (String × String)) (k : String) : Except QErr String :=
  match d.reverse.lookup k with
  | some v => .ok v
  | none => .error (.pyKeyError k)

/-- The body of the `for data in jobdata_raw` loop of
`parse_jobs_list_output`, for one line already split into fields.
Field-count check, then the `thisjob_dict` comprehension (canonical field
names zipped with stripped values), then the per-field conversions with
exactly the source's `try/except` granularity: the raw-state lookup
failure and a time-limit conversion failure are fatal, node/cpu counts and
runtime degrade to `None`, and the memory field degrades only on
`OutputParsingError` (a `KeyError`/`IndexError` escaping
`_convert_memory_str` propagates). -/
def parseJobLine (numLines : Nat) (data : List String) : Except QErr QJob :=
  if data.length ≠ squeue_fields.length then
    .error (.parsing (wrongFieldCountMsg numLines squeue_fields.length))
  else do
    let thisjob_dict := (squeue_fields.map (·.2)).zip (data.map pyStrip)
    let job_id ← pyDictGet thisjob_dict "job_id"
    let job_state_string ← pyDictGet thisjob_dict "state_raw"
    let slurm_job_state ← (match slurmStateOfString job_state_string with
      | some st => pure st
      | none =>
        throw (.parsing ("Unknown job state " ++ job_state_string ++ " for job id " ++ job_id)))
    let state := statusMap slurm_job_state
    let username ← pyDictGet thisjob_dict "username"
    let numberNodesStr ← pyDictGet thisjob_dict "number_nodes"
    let nodes := pyInt? numberNodesStr
    let numberCpusStr ← pyDictGet thisjob_dict "number_cpus"
    let cpus := pyInt? numberCpusStr
    let minMemoryStr ← pyDictGet thisjob_dict "min_memory"
    let memory_per_cpu ← (match convert_memory_str minMemoryStr with
      | .ok v => pure (some v)
      | .error (.parsing _) => pure (none : Option Int)
      | .error e => throw e)
    let partitionStr ← pyDictGet thisjob_dict "partition"
    let timeLimitStr ← pyDictGet thisjob_dict "time_limit"
    let time_limit ← (match convert_time_str timeLimitStr with
      | .ok o => pure o
      | .error e => throw e)
    let timeUsedStr ← pyDictGet thisjob_dict "time_used"
    let runtime := (match convert_time_str timeUsedStr with
      | .ok o => o
      | .error _ => none)
    let jobNameStr ← pyDictGet thisjob_dict "job_name"
    pure
      { job_id := some job_id,
        sub_state := some slurm_job_state,
        state := some state,
        username := some username,
        runtime := runtime,
        name := some jobNameStr,
        info := some
          { nodes := nodes,
            cpus := cpus,
            memory_per_cpu := memory_per_cpu,
            partition := some partitionStr,
            time_limit := time_limit } }

/-- The loop of `parse_jobs_list_output`: jobs are appended in order and
the first exception aborts the whole call. -/
def processJobLines (numLines : Nat) : List (List String) → Except QErr (List QJob)
  | [] => .ok []
  | d :: rest =>
    match parseJobLine numLines d with
    | .error e => .error e
    | .ok j =>
      match processJobLines numLines rest with
      | .error e => .error e
      | .ok js => .ok (j :: js)

/-- `SlurmIO.parse_jobs_list_output`.  The adapter's configuration
(`self.get_job_executable`, `self.split_separator`) is passed explicitly. -/
def parse_jobs_list_output (get_job_executable split_separator : String)
    (exit_code : Int) (stdout stderr : String) : Except QErr (List QJob) :=
  if exit_code ≠ 0 then
    .error (.commandFailed ("command " ++ get_job_executable ++ " failed: " ++ stderr))
  else
    let jobdata_raw :=
      ((pySplitlines stdout).filter (fun chunk => pyInStr split_separator chunk)).map
        (fun chunk => pySplitSep chunk split_separator)
    processJobLines jobdata_raw.length jobdata_raw

/-! ## Single-job output parsing (`SlurmIO.parse_job_output`) -/

/-- `SlurmIO._parse_scontrol_cmd_output`: the dict comprehension
`{tok.split("=", 1)[0]: tok.split("=", 1)[1] for tok in stdout.split()}`
as its insertion list.  A token without `=` makes the `[1]` index raise
`IndexError`. -/
def parse_scontrol_tokens : List String → Except QErr (List (String × String))
  | [] => .ok []
  | tok :: rest => do
    match pySplitSepOnce tok "=" with
    | [k, v] =>
      let tl ← parse_scontrol_tokens rest
      pure ((k, v) :: tl)
    | _ => .error .pyIndexError

/-- `SlurmIO.parse_job_output` for the `scontrol` executable.  The
conversions run in source order with the source's exception handling; the
call then always aborts with a `TypeError`, because the source constructs
`QJobInfo(..., priority=priority, qos=parsed_output["QOS"])` while the
`QJobInfo` dataclass declares neither a `priority` nor a `qos` field, so
its generated `__init__` rejects the keywords.  No `QJob` is ever
returned. -/
def parse_job_output (get_job_executable : String) (exit_code : Int)
    (stdout stderr : String) : Except QErr QJob := do
  if exit_code ≠ 0 then
    throw (.commandFailed ("command " ++ get_job_executable ++ " failed: " ++ stderr))
  else if get_job_executable = "scontrol" then
    let parsed ← parse_scontrol_tokens (pyWhitespaceSplit stdout)
    let jobStateStr ← pyDictGet parsed "JobState"
    let slurm_state ← (match slurmStateOfString jobStateStr with
      | some st => pure st
      | none => throw (.pyValueError (jobStateStr ++ " is not a valid SlurmState")))
    let _job_state := statusMap slurm_state
    let minMemStr ← pyDictGet parsed "MinMemoryCPU"
    let _memory_per_cpu ← (match convert_memory_str minMemStr with
      | .ok v => pure (some v)
      | .error (.parsing _) => pure (none : Option Int)
      | .error e => throw e)
    let numNodesStr ← pyDictGet parsed "NumNodes"
    let _nodes := pyInt? numNodesStr
    let numCpusStr ← pyDictGet parsed "NumCPUs"
    let _cpus := pyInt? numCpusStr
    let cpusTaskStr ← pyDictGet parsed "CPUs/Task"
    let _cpus_task := pyInt? cpusTaskStr
    let priorityStr ← pyDictGet parsed "Priority"
    let _priority := pyInt? priorityStr
    let timeLimitStr ← pyDictGet parsed "TimeLimit"
    let _time_limit ← (match convert_time_str timeLimitStr with
      | .ok o => pure o
      | .error (.parsing _) => pure (none : Option Int)
      | .error e => throw e)
    let _qos ← pyDictGet parsed "QOS"
    throw (.pyTypeError "QJobInfo got unexpected keyword arguments priority and qos")
  else if get_job_executable = "sacct" then
    throw (.pyNotImplementedError "sacct for get_job not yet implemented.")
  else
    throw (.pyRuntimeError (get_job_executable ++ " is not a valid get_job_executable."))

/-! ## Resource rendering (`SlurmIO._convert_qresources`) -/

/-- Modelled from the spec: the `hold` field only.  The spec's §3
`ResourceRequest` lists a hold flag among the optional request fields, and
`_qresources_mapping` reads attribute `hold`; the `QResources` class body
in `src` does not declare it, but the base class `QBase`
(`qtoolkit/core/base.py`) is not part of `src`, so the attribute is
modelled as an optional flag per the spec.  Every other field and default
is the `QResources` dataclass of `src/src/qtoolkit/core/data_objects.py`
verbatim (note the non-`None` defaults of `memory_per_thread`, `nodes` and
`processes`). -/
structure QResources where
  queue_name : Option String := none
  job_name : Option String := none
  memory_per_thread : Option Int := some 1024
  nodes : Option Int := some 1
  processes : Option Int := some 1
  processes_per_node : Option Int := none
  threads_per_process : Option Int := none
  time_limit : Option Int := none
  account : Option String := none
  qos : Option String := none
  priority : Option Int := none
  output_filepath : Option String := none
  error_filepath : Option String := none
  hold : Option Bool := none
deriving DecidableEq

/-- A `QResources` with every field unset (each defaulted field passed
`None` explicitly). -/
def qresources_blank : QResources :=
  { memory_per_thread := none, nodes := none, processes := none }

/-- The values a rendered directive can carry. -/
inductive QRVal where
  | i (n : Int)
  | s (v : String)
  | b (v : Bool)
deriving DecidableEq

/-- `SlurmIO._qresources_mapping`, in source order. -/
def qresources_mapping : List (String × String) :=
  [("queue_name", "partition"),
   ("memory_per_thread", "mem-per-cpu"),
   ("nodes", "nodes"),
   ("processes", "ntasks"),
   ("processes_per_node", "ntasks-per-node"),
   ("threads_per_process", "cpus-per-task"),
   ("time_limit", "time"),
   ("hold", "hold"),
   ("account", "account"),
   ("qos", "qos"),
   ("priority", "priority")]

/-- `getattr(resources, qr_field)` for the field names
`_qresources_mapping` uses. -/
def qrGetattr (r : QResources) : String → Option QRVal
  | "queue_name" => r.queue_name.map .s
  | "memory_per_thread" => r.memory_per_thread.map .i
  | "nodes" => r.nodes.map .i
  | "processes" => r.processes.map .i
  | "processes_per_node" => r.processes_per_node.map .i
  | "threads_per_process" => r.threads_per_process.map .i
  | "time_limit" => r.time_limit.map .i
  | "hold" => r.hold.map .b
  | "account" => r.account.map .s
  | "qos" => r.qos.map .s
  | "priority" => r.priority.map .i
  | _ => none

/-- `SlurmIO._convert_qresources`: iterate the mapping in order, emitting a
directive entry only for present values. -/
def convert_qresources (r : QResources) : List (String × QRVal) :=
  qresources_mapping.filterMap fun p => (qrGetattr r p.1).map fun v => (p.2, v)

/-! ## Adapter construction -/

/-- The two configuration attributes the spec says are set at
construction. -/
structure SlurmAdapterAttrs where
  get_job_executable : Option String := none
  split_separator : Option String := none
deriving DecidableEq

/-- Embeds Python instance construction `SlurmIO()`: the class defines a
method literally named `__int__` (the integer-conversion hook), not
`__init__`, so Python's default object initializer runs and neither
configuration attribute is assigned.  (Construction with arguments,
`SlurmIO("scontrol", "<><>")`, raises `TypeError` outright.) -/
def slurmAdapterConstruct : SlurmAdapterAttrs :=
  { get_job_executable := none, split_separator := none }

/-- The body of the method named `__int__` in the source — what the
constructor was evidently meant to do, reachable only by calling
`int(adapter)` explicitly. -/
def slurmAdapterIntMethod (_self : SlurmAdapterAttrs)
    (get_job_executable : String) (split_separator : String) : SlurmAdapterAttrs :=
  { get_job_executable := some get_job_executable, split_separator := some split_separator }

/-! ## Concrete scheduler outputs used by the theorems -/

/-- A well-formed squeue data line for job 123 (pending, 1 node, 4 cpus,
10 minute limit, no runtime yet, 4096 MiB per cpu). -/
def slurmListLine : String :=
  "123<><> PD<><> None<><> job1<><> alice<><> debug<><> 10:00<><> 1<><> 4<><> 0:00<><> 4096M"

/-- The same line with a time-limit field that fails time conversion. -/
def slurmListLineBadTimeLimit : String :=
  "123<><> PD<><> None<><> job1<><> alice<><> debug<><> abc<><> 1<><> 4<><> 0:00<><> 4096M"

/-- The same line with a four-part time-limit field (also unparseable). -/
def slurmListLineBadTimeLimit2 : String :=
  "123<><> PD<><> None<><> job1<><> alice<><> debug<><> 9:9:9:9<><> 1<><> 4<><> 0:00<><> 4096M"

/-- A line whose node count, cpu count, runtime and memory fields all fail
conversion (the memory field with an `OutputParsingError`), while the
time-limit field is fine. -/
def slurmListLineBadOptional : String :=
  "123<><> PD<><> None<><> job1<><> alice<><> debug<><> 10:00<><> N/A<><> N/A<><> abc<><> abc"

/-- A line with an unrecognized raw state. -/
def slurmListLineBadState : String :=
  "123<><> XX<><> None<><> job1<><> alice<><> debug<><> 10:00<><> 1<><> 4<><> 0:00<><> 4096M"

/-- A line whose memory field `4096` carries no unit letter, driving
`_convert_memory_str` into its uncaught `KeyError`. -/
def slurmListLineBareMemory : String :=
  "123<><> PD<><> None<><> job1<><> alice<><> debug<><> 10:00<><> 1<><> 4<><> 0:00<><> 4096"

/-- A fully well-formed one-line `scontrol show job -o` output. -/
def scontrolStdout : String :=
  "JobId=123 JobName=j1 UserId=alice(1000) Priority=100 QOS=normal JobState=RUNNING Partition=debug NumNodes=1 NumCPUs=4 CPUs/Task=1 MinMemoryCPU=2G TimeLimit=10:00"

/-! ## Claim C1 — time-string conversion -/

/-- Claim C1.  The literals `UNLIMITED` / `NOT_SET` convert to an absent
value and `05:06` to 306 seconds, and `abc` raises `OutputParsingError`,
as the claim states; but `1-02:03:04` converts to 90184 seconds, not the
claimed 93784 = 1*86400 + 2*3600 + 3*60 + 4: the source line
`time_split = [split_day[0]] + time_split[1:]` re-inserts the day figure
(`1`) as the hours field, discarding the real hours (`02`), so the code
computes 1*86400 + 1*3600 + 3*60 + 4.  This contradicts the function's own
docstring ("Convert a string in the format used by SLURM DD-HH:MM:SS to a
number of seconds"): a code bug, not a spec error. -/
theorem convert_time_examples :
    convert_time_str "1-02:03:04" = .ok (some 90184) ∧
    (90184 : Int) ≠ 93784 ∧
    convert_time_str "05:06" = .ok (some 306) ∧
    convert_time_str "UNLIMITED" = .ok none ∧
    convert_time_str "NOT_SET" = .ok none ∧
    convert_time_str "abc" = .error (.parsing "") := by
  refine ⟨by decide, by decide, by decide, by decide, by decide, by decide⟩

/-! ## Claim C2 — memory-string conversion -/

/-- Claim C2.  With an explicit unit letter the conversion is as claimed
(`4096M` to 4096*1024 KiB, `2G` to 2*1024*1024 KiB), and a non-numeric
prefix raises `OutputParsingError`; but a memory string with no unit
suffix does not default to `M`: the assume-megabytes branch is guarded by
`all(u in memory for u in ("K", "M", "G", "T"))` — satisfiable only by a
string containing all four letters, which then cannot parse as an integer
— so for `4096` the code strips the final digit `6` as the "unit" and
raises an uncaught `KeyError` on the power table, instead of the claimed
4096*1024.  The dead assume-megabytes branch contradicts its own
`# assume Mb` comment: a code bug. -/
theorem convert_memory_examples :
    convert_memory_str "4096M" = .ok (4096 * 1024) ∧
    convert_memory_str "2G" = .ok (2 * 1024 * 1024) ∧
    convert_memory_str "abc" = .error (.parsing "") ∧
    convert_memory_str "4096" = .error (.pyKeyError "6") := by
  refine ⟨by decide, by decide, by decide, by decide⟩

/-! ## Claim C3 — single-id query duplication and (no) deduplication -/

/-- Claim C3, counterexample.  `parse_jobs_list_output` does not
deduplicate: on an output that lists the same job id in two rows it
returns two records, not the claimed exactly one. -/
theorem jobs_list_duplicate_rows_not_deduped :
    (parse_jobs_list_output "scontrol" "<><>" 0 (slurmListLine ++ "\n" ++ slurmListLine) "").map
        (fun l => l.map fun j => j.job_id) = .ok [some "123", some "123"] ∧
    ([some "123", some "123"] : List (Option String)).length ≠ 1 := by
  refine ⟨by decide, by decide⟩

/-- Claim C3 as amended.  Querying one job id duplicates the id in the
generated `--jobs` filter (mutating the caller's list in doing so), and
`parse_jobs_list_output` returns one record per data row with no
deduplication — so it returns exactly one record for the id exactly when
the scheduler prints the row once. -/
theorem single_id_query_duplication :
    (get_jobs_list_cmd "<><>" (some ["123"]) none).map
        (fun p => (pyInStr "--jobs=123,123" p.1, p.2)) = .ok (true, some ["123", "123"]) ∧
    (parse_jobs_list_output "scontrol" "<><>" 0 slurmListLine "").map
        (fun l => l.map fun j => j.job_id) = .ok [some "123"] := by
  refine ⟨by decide, by decide⟩

/-! ## Claim C4 — submit-output trichotomy -/

/-- Claim C4.  `parse_submit_output` is total (the embedding's codomain is
the plain record type: no raising path exists in the source), and for
every input triple: nonzero exit code gives `FAILED`; exit code 0 with a
stdout matching the submission-acknowledgement pattern gives `SUCCESSFUL`
carrying the captured id; exit code 0 without a match gives
`JOB_ID_UNKNOWN`. -/
theorem parse_submit_trichotomy (exit_code : Int) (stdout stderr : String) :
    (exit_code ≠ 0 → (parse_submit_output exit_code stdout stderr).status = some .FAILED) ∧
    (exit_code = 0 → ∀ jid, slurmSubmittedMatch (pyStrip stdout) = some jid →
      (parse_submit_output exit_code stdout stderr).status = some .SUCCESSFUL ∧
      (parse_submit_output exit_code stdout stderr).job_id = some jid) ∧
    (exit_code = 0 → slurmSubmittedMatch (pyStrip stdout) = none →
      (parse_submit_output exit_code stdout stderr).status = some .JOB_ID_UNKNOWN) := by
  refine ⟨fun h => ?_, fun h jid hm => ?_, fun h hm => ?_⟩
  · simp [parse_submit_output, h]
  · subst h
    refine ⟨?_, ?_⟩ <;> simp [parse_submit_output, hm]
  · subst h
    simp [parse_submit_output, hm]

/-- Witness for C4 at the claim's example:
`(0, "Submitted batch job 12345\n", "")` is `SUCCESSFUL` with id `12345`. -/
theorem parse_submit_trichotomy_witness :
    (parse_submit_output 0 "Submitted batch job 12345\n" "").status = some .SUCCESSFUL ∧
    (parse_submit_output 0 "Submitted batch job 12345\n" "").job_id = some "12345" :=
  (parse_submit_trichotomy 0 "Submitted batch job 12345\n" "").2.1 rfl "12345" (by decide)

/-! ## Claim C5 — totality and policy of the status mapping -/

/-- Claim C5.  The status mapping is total over the twelve declared
`SlurmState` variants, and follows the stated tie-breaks: `CANCELLED` goes
to `SUSPENDED` (which is distinct from `FAILED`), `COMPLETING` to
`RUNNING`, and `OUT_OF_MEMORY`, `NODE_FAIL`, `DEADLINE` and `TIMEOUT` all
to `FAILED`. -/
theorem status_mapping_total_and_policy :
    (∀ s : SlurmState, (STATUS_MAPPING.lookup s).isSome = true) ∧
    STATUS_MAPPING.lookup .CANCELLED = some .SUSPENDED ∧
    QState.SUSPENDED ≠ QState.FAILED ∧
    STATUS_MAPPING.lookup .COMPLETING = some .RUNNING ∧
    STATUS_MAPPING.lookup .OUT_OF_MEMORY = some .FAILED ∧
    STATUS_MAPPING.lookup .NODE_FAIL = some .FAILED ∧
    STATUS_MAPPING.lookup .DEADLINE = some .FAILED ∧
    STATUS_MAPPING.lookup .TIMEOUT = some .FAILED := by
  refine ⟨fun s => ?_, by decide, by decide, by decide, by decide, by decide, by decide, by decide⟩
  cases s <;> decide

/-! ## Claim C6 — per-field degradation policy -/

/-- Claim C6, counterexample.  A jobs-list line whose time-limit field
fails time conversion does not produce a record with an absent time limit:
the conversion sits outside any `try/except` in `parse_jobs_list_output`
(the source's own TODO notes it "can raise"), so the whole call aborts
with the `OutputParsingError`. -/
theorem jobs_list_time_limit_failure_fatal :
    convert_time_str "abc" = .error (.parsing "") ∧
    parse_jobs_list_output "scontrol" "<><>" 0 slurmListLineBadTimeLimit "" =
      .error (.parsing "") := by
  refine ⟨by decide, by decide⟩

/-- Claim C6 as amended.  In jobs-list parsing the node count, cpu count
and runtime degrade to absent on conversion failure, and the memory field
degrades on an `OutputParsingError` (first conjunct: all four absent in
one surviving record); but a time-limit conversion failure is fatal
(second conjunct), as is the raw-state lookup failure (third conjunct).
Single-job parsing never yields a record at all: even on a fully
well-formed `scontrol` output it aborts with a `TypeError`, because it
passes `priority` and `qos` keywords that the `QJobInfo` dataclass does
not declare (fourth conjunct), so no per-field degradation is observable
there. -/
theorem field_degradation_policy :
    (parse_jobs_list_output "scontrol" "<><>" 0 slurmListLineBadOptional "").map
        (fun l => l.map fun j =>
          (j.info.map fun i => (i.nodes, i.cpus, i.memory_per_cpu, i.time_limit), j.runtime)) =
      .ok [(some (none, none, none, some 600), none)] ∧
    parse_jobs_list_output "scontrol" "<><>" 0 slurmListLineBadTimeLimit2 "" =
      .error (.parsing "") ∧
    parse_jobs_list_output "scontrol" "<><>" 0 slurmListLineBadState "" =
      .error (.parsing "Unknown job state XX for job id 123") ∧
    parse_job_output "scontrol" 0 scontrolStdout "" =
      .error (.pyTypeError "QJobInfo got unexpected keyword arguments priority and qos") := by
  refine ⟨rfl, by decide, by decide, by decide⟩

/-! ## Claim C7 — wrong field count fails the whole call -/

/-- If some already-split line has the wrong field count, the loop of
`parse_jobs_list_output` ends in an error (whichever error comes first). -/
theorem processJobLines_error_of_bad (numLines : Nat) (lines : List (List String))
    (h : ∃ d ∈ lines, d.length ≠ squeue_fields.length) :
    ∃ e, processJobLines numLines lines = .error e := by
  induction lines with
  | nil => simp at h
  | cons d rest ih =>
    rcases h with ⟨d', hmem, hlen⟩
    rcases List.mem_cons.mp hmem with heq | hmem'
    · subst heq
      exact ⟨.parsing (wrongFieldCountMsg numLines squeue_fields.length),
        by simp [processJobLines, parseJobLine, hlen]⟩
    · obtain ⟨e, he⟩ := ih ⟨d', hmem', hlen⟩
      cases hp : parseJobLine numLines d with
      | error e2 => exact ⟨e2, by simp [processJobLines, hp]⟩
      | ok j => exact ⟨e, by simp [processJobLines, hp, he]⟩

/-- Claim C7, counterexample.  The claim's universal form fails: in this
output the second line has the wrong field count (2, not 11), yet the call
fails with the uncaught `KeyError` that the first line's unit-less memory
field `4096` raises inside `_convert_memory_str` — not with a
`ParsingError`. -/
theorem bad_count_preempted_by_memory_key_error :
    parse_jobs_list_output "scontrol" "<><>" 0 (slurmListLineBareMemory ++ "\n" ++ "a<><>b") "" =
      .error (.pyKeyError "6") ∧
    QErr.isParsingError (.pyKeyError "6") = false ∧
    pyInStr "<><>" "a<><>b" = true ∧
    (pySplitSep "a<><>b" "<><>").length ≠ squeue_fields.length := by
  refine ⟨by decide, by decide, by decide, by decide⟩

/-- Claim C7 as amended.  If some delimiter-containing line splits into a
number of fields different from the declared count (eleven), the whole
call fails — no partial list is ever returned — and the failure is the
wrong-field-count `ParsingError` whenever the offending line is the first
delimiter-containing line; an earlier line can only pre-empt it with a
different error of its own (such as the memory converter's `KeyError`). -/
theorem jobs_list_bad_field_count (exe sep stdout stderr : String)
    (h : ∃ chunk ∈ pySplitlines stdout, pyInStr sep chunk = true ∧
      (pySplitSep chunk sep).length ≠ squeue_fields.length) :
    (∃ e, parse_jobs_list_output exe sep 0 stdout stderr = .error e) ∧
    (∀ c0 rest, (pySplitlines stdout).filter (fun c => pyInStr sep c) = c0 :: rest →
      (pySplitSep c0 sep).length ≠ squeue_fields.length →
      ∃ m, parse_jobs_list_output exe sep 0 stdout stderr = .error (.parsing m)) := by
  constructor
  · rcases h with ⟨chunk, hmem, hin, hlen⟩
    unfold parse_jobs_list_output
    rw [if_neg (by simp)]
    apply processJobLines_error_of_bad
    exact ⟨pySplitSep chunk sep,
      List.mem_map.mpr ⟨chunk, List.mem_filter.mpr ⟨hmem, hin⟩, rfl⟩, hlen⟩
  · intro c0 rest hfil hlen
    refine ⟨wrongFieldCountMsg ((pySplitlines stdout).filter (fun c => pyInStr sep c)).length
      squeue_fields.length, ?_⟩
    unfold parse_jobs_list_output
    rw [if_neg (by simp)]
    simp only [hfil, List.map_cons, List.length_map]
    simp [processJobLines, parseJobLine, hlen, hfil]

/-- Witness for C7's amended statement at a one-line output whose single
line splits into 2 fields. -/
theorem jobs_list_bad_field_count_witness :
    (∃ e, parse_jobs_list_output "scontrol" "<><>" 0 "a<><>b" "" = .error e) ∧
    (∃ m, parse_jobs_list_output "scontrol" "<><>" 0 "a<><>b" "" = .error (.parsing m)) := by
  have h := jobs_list_bad_field_count "scontrol" "<><>" "a<><>b" "" (by decide)
  exact ⟨h.1, h.2 "a<><>b" [] (by decide) (by decide)⟩

/-! ## Claim C8 — one directive per set resource field -/

/-- Claim C8.  For each of the eleven recognized resource fields, a
resource request with only that field set renders to exactly the one
directive for that field, and a request with no field set renders to no
directive at all. -/
theorem qresources_single_field_render (n : Int) (s : String) (b : Bool) :
    convert_qresources { qresources_blank with queue_name := some s } = [("partition", .s s)] ∧
    convert_qresources { qresources_blank with memory_per_thread := some n } =
      [("mem-per-cpu", .i n)] ∧
    convert_qresources { qresources_blank with nodes := some n } = [("nodes", .i n)] ∧
    convert_qresources { qresources_blank with processes := some n } = [("ntasks", .i n)] ∧
    convert_qresources { qresources_blank with processes_per_node := some n } =
      [("ntasks-per-node", .i n)] ∧
    convert_qresources { qresources_blank with threads_per_process := some n } =
      [("cpus-per-task", .i n)] ∧
    convert_qresources { qresources_blank with time_limit := some n } = [("time", .i n)] ∧
    convert_qresources { qresources_blank with hold := some b } = [("hold", .b b)] ∧
    convert_qresources { qresources_blank with account := some s } = [("account", .s s)] ∧
    convert_qresources { qresources_blank with qos := some s } = [("qos", .s s)] ∧
    convert_qresources { qresources_blank with priority := some n } = [("priority", .i n)] ∧
    convert_qresources qresources_blank = [] := by
  exact ⟨rfl, rfl, rfl, rfl, rfl, rfl, rfl, rfl, rfl, rfl, rfl, rfl⟩

/-! ## Claim C9 — construction does not set the configuration -/

/-- Claim C9.  Constructing the adapter sets neither configuration
attribute: the source misspells the constructor as `__int__` (the
integer-conversion hook), so default construction assigns nothing — and
passing the two arguments to `SlurmIO(...)` raises `TypeError` — while the
body of the misnamed method (third conjunct) is exactly the assignment the
claim describes, reachable only through an explicit `int(adapter)`. -/
theorem construction_sets_no_attributes :
    slurmAdapterConstruct.get_job_executable = none ∧
    slurmAdapterConstruct.split_separator = none ∧
    (∀ a exe sep, slurmAdapterIntMethod a exe sep =
      { get_job_executable := some exe, split_separator := some sep }) :=
  ⟨rfl, rfl, fun _ _ _ => rfl⟩

/-! ## Claim C10 — the list-command builder and its argument -/

/-- Claim C10, counterexample.  Calling the builder with the
single-element job-id list `["123"]` leaves the caller's list as
`["123", "123"]`: the source's `job_ids += [job_ids[0]]` extends the list
in place, so the argument is not left unchanged. -/
theorem jobs_list_cmd_mutates_singleton :
    (get_jobs_list_cmd "<><>" (some ["123"]) none).map Prod.snd = .ok (some ["123", "123"]) ∧
    (some ["123", "123"] : Option (List String)) ≠ some ["123"] := by
  refine ⟨by decide, by decide⟩

/-- Claim C10 as amended.  The builder's command string is a function of
its argument values alone (it reads no other state), but it does not leave
its arguments unchanged: whenever it returns, the caller's job-id list has
a copy of its head appended exactly when it had exactly one element, and
is untouched otherwise. -/
theorem jobs_list_cmd_value_semantics (sep : String) (ids : List String) (user : Option String)
    (h : ¬(pyTruthyStr user = true ∧ pyTruthyList (some ids) = true)) :
    (get_jobs_list_cmd sep (some ids) user).map Prod.snd =
      .ok (some (if ids.length = 1 then ids ++ ids.take 1 else ids)) := by
  unfold get_jobs_list_cmd
  rw [if_neg h]
  by_cases hid : ids = []
  · subst hid
    simp [Except.map]
  · by_cases hlen : ids.length = 1 <;> simp [Except.map, hid, hlen]

/-- Witness for C10's amended statement at the singleton list. -/
theorem jobs_list_cmd_value_semantics_witness :
    (get_jobs_list_cmd "<><>" (some ["123"]) none).map Prod.snd = .ok (some ["123", "123"]) := by
  have h := jobs_list_cmd_value_semantics "<><>" ["123"] none (by decide)
  simpa using h
